import Mathlib

/-! Verification development for the phone-chatbot silence watchdog:
a shallow embedding of `call_stats.py` (`CallStats`) and
`silence_watcher.py` (`SilenceWatcher`) together with theorems about the
silence-monitoring state machine and the statistics accumulator.

Timestamps are modelled as natural-number clock readings; every operation
that calls `time.time()` in the source takes the corresponding reading as
an explicit argument.  Side effects (frames pushed into the pipeline,
frames handed to the TTS sink, summary log lines, the call-state
collaborator's "mark terminated" call) are modelled as an output list
returned alongside the updated state.
-/

/-- Python truthiness of an optional numeric timestamp: `None` and `0` are
falsy, every other number is truthy.  Used for the source's
`if self.last_bot_spoke_time` and `if not self.stats.call_end_time` tests. -/
def pyTruthy : Option Nat → Bool
  | none => false
  | some n => n != 0

/-- State of `CallStats` (class `CallStats` in `call_stats.py`). -/
structure CallStats where
  call_start_time : Nat
  call_end_time : Option Nat
  silence_events : Nat
  user_speech_events : Nat
  bot_speech_events : Nat
  prompts_sent : Nat
deriving Repr, DecidableEq

/-- Constructor `CallStats.__init__`: start time is the current clock, no end time yet,
all counters zero. -/
def CallStats.init (start : Nat) : CallStats :=
  { call_start_time := start
    call_end_time := none
    silence_events := 0
    user_speech_events := 0
    bot_speech_events := 0
    prompts_sent := 0 }

/-- Method `CallStats.duration_seconds`: `end_time - start_time`, where `end_time`
is `call_end_time` when truthy and the current clock otherwise. -/
def CallStats.duration_seconds (s : CallStats) (now : Nat) : Int :=
  let end_time : Nat := if pyTruthy s.call_end_time then s.call_end_time.getD now else now
  (end_time : Int) - (s.call_start_time : Int)

/-- Python's `"%02d"`-style formatting (`f"{seconds:02d}"`): left-pad the
decimal rendering with `'0'` to a minimum width of two. -/
def pyFormat02d (n : Int) : String :=
  let s := toString n
  if s.length < 2 then "0" ++ s else s

/-- Method `CallStats.format_duration`: `minutes, seconds = divmod(seconds, 60)`
(Python `divmod` is floor division and floor remainder), rendered as
`f"{minutes}:{seconds:02d}"`. -/
def CallStats.format_duration (s : CallStats) (now : Nat) : String :=
  let seconds : Int := s.duration_seconds now
  let minutes : Int := Int.fdiv seconds 60
  let secs : Int := Int.fmod seconds 60
  toString minutes ++ ":" ++ pyFormat02d secs

/-- Method `CallStats.generate_summary`: the fixed six-line report, joined with
newlines. -/
def CallStats.generate_summary (s : CallStats) (now : Nat) : String :=
  let duration := s.format_duration now
  String.intercalate "\n"
    [ "=== CALL SUMMARY ==="
    , "Duration: " ++ duration
    , "Silence events: " ++ toString s.silence_events
    , "Prompts sent: " ++ toString s.prompts_sent
    , "User speech events: " ++ toString s.user_speech_events
    , "Bot speech events: " ++ toString s.bot_speech_events ]

/-- The frame kinds the watcher distinguishes, plus a generic pass-through
frame (any other pipecat frame). -/
inductive Frame where
  | BotStoppedSpeakingFrame
  | UserStartedSpeakingFrame
  | TextFrame (text : String)
  | EndTaskFrame
  | OtherFrame (tag : Nat)
deriving Repr, DecidableEq

/-- Direction enum `pipecat.processors.frame_processor.FrameDirection`. -/
inductive FrameDirection where
  | DOWNSTREAM
  | UPSTREAM
deriving Repr, DecidableEq

/-- Observable side effects of the watcher: a frame handed to the TTS sink
(`self.tts.process_frame`), a frame pushed onward (`self.push_frame`), a
summary log line (`logger.info(summary)`), and the call-state
collaborator's `set_call_terminated()`. -/
inductive WatcherOutput where
  | ttsFrame (f : Frame) (d : FrameDirection)
  | pushFrame (f : Frame) (d : FrameDirection)
  | logSummary (s : String)
  | markCallTerminated
deriving Repr, DecidableEq

/-- Mutable state of `SilenceWatcher` together with its constructor-time
configuration. -/
structure SilenceWatcher where
  prompt_text : String
  threshold_secs : Nat
  max_prompts : Nat
  awaiting_response : Bool
  last_bot_spoke_time : Option Nat
  unanswered_count : Nat
  monitoring_active : Bool
  stats : CallStats
deriving Repr, DecidableEq

/-- Constructor `SilenceWatcher.__init__` at clock `start`. -/
def SilenceWatcher.init (prompt_text : String) (threshold_secs max_prompts : Nat)
    (start : Nat) : SilenceWatcher :=
  { prompt_text := prompt_text
    threshold_secs := threshold_secs
    max_prompts := max_prompts
    awaiting_response := false
    last_bot_spoke_time := none
    unanswered_count := 0
    monitoring_active := true
    stats := CallStats.init start }

/-- Method `SilenceWatcher.terminate_call` at clock `now`: unconditionally set
`stats.call_end_time = now`, log the summary, mark the call terminated on
the session manager, stop monitoring, push `EndTaskFrame` upstream. -/
def SilenceWatcher.terminate_call (w : SilenceWatcher) (now : Nat) :
    SilenceWatcher × List WatcherOutput :=
  let stats := { w.stats with call_end_time := some now }
  let summary := stats.generate_summary now
  ({ w with stats := stats, monitoring_active := false }
   , [ WatcherOutput.logSummary summary
     , WatcherOutput.markCallTerminated
     , WatcherOutput.pushFrame Frame.EndTaskFrame FrameDirection.UPSTREAM ])

/-- One iteration of the `_monitor_silence` loop body, guarded by the loop
condition `while self.monitoring_active`.  `tNow` is the `time.time()`
reading at the elapsed check; `tAfterDelay` is the reading after the 2s
pacing delay, used both to re-arm `last_bot_spoke_time` and as
`terminate_call`'s clock. -/
def SilenceWatcher.monitor_silence_tick (w : SilenceWatcher) (tNow tAfterDelay : Nat) :
    SilenceWatcher × List WatcherOutput :=
  if w.monitoring_active then
    if w.awaiting_response && pyTruthy w.last_bot_spoke_time then
      let elapsed : Int := (tNow : Int) - (w.last_bot_spoke_time.getD 0 : Int)
      if elapsed > (w.threshold_secs : Int) then
        let w1 := { w with
          awaiting_response := false
          unanswered_count := w.unanswered_count + 1
          stats := { w.stats with
            silence_events := w.stats.silence_events + 1
            prompts_sent := w.stats.prompts_sent + 1 } }
        let promptOut := WatcherOutput.ttsFrame (Frame.TextFrame w.prompt_text)
          FrameDirection.DOWNSTREAM
        let w2 := { w1 with last_bot_spoke_time := some tAfterDelay, awaiting_response := true }
        if w2.unanswered_count ≥ w2.max_prompts then
          let r := w2.terminate_call tAfterDelay
          (r.1, promptOut :: r.2)
        else
          (w2, [promptOut])
      else (w, [])
    else (w, [])
  else (w, [])

/-- Method `SilenceWatcher.process_frame` at clock `now`: update speech-event state
for the two speech frames, then push the incoming frame onward in the same
direction.  (The `super().process_frame` call belongs to the external
pipecat base class and touches none of the watcher's state.) -/
def SilenceWatcher.process_frame (w : SilenceWatcher) (frame : Frame)
    (direction : FrameDirection) (now : Nat) : SilenceWatcher × List WatcherOutput :=
  let w' :=
    match frame with
    | Frame.BotStoppedSpeakingFrame =>
        { w with
          awaiting_response := true
          last_bot_spoke_time := some now
          stats := { w.stats with bot_speech_events := w.stats.bot_speech_events + 1 } }
    | Frame.UserStartedSpeakingFrame =>
        { w with
          awaiting_response := false
          unanswered_count := 0
          stats := { w.stats with user_speech_events := w.stats.user_speech_events + 1 } }
    | _ => w
  (w', [WatcherOutput.pushFrame frame direction])

/-- Method `SilenceWatcher.cleanup` at clock `now`: finalize the stats and log the
summary only if `call_end_time` is falsy, then stop monitoring (the task
cancellation itself has no effect on the modelled state). -/
def SilenceWatcher.cleanup (w : SilenceWatcher) (now : Nat) :
    SilenceWatcher × List WatcherOutput :=
  if !pyTruthy w.stats.call_end_time then
    let stats := { w.stats with call_end_time := some now }
    let summary := stats.generate_summary now
    ({ w with stats := stats, monitoring_active := false }
     , [WatcherOutput.logSummary summary])
  else
    ({ w with monitoring_active := false }, [])

/-- The externally triggerable operations on a watcher, with their clock
readings; `terminate_call` is also listed so that invariants cover even a
direct call to it. -/
inductive WatcherOp where
  | frameOp (f : Frame) (d : FrameDirection) (now : Nat)
  | tickOp (tNow tAfterDelay : Nat)
  | cleanupOp (now : Nat)
  | terminateOp (now : Nat)
deriving Repr, DecidableEq

/-- Dispatch one operation. -/
def SilenceWatcher.runOp (w : SilenceWatcher) (op : WatcherOp) :
    SilenceWatcher × List WatcherOutput :=
  match op with
  | WatcherOp.frameOp f d now => w.process_frame f d now
  | WatcherOp.tickOp t1 t2 => w.monitor_silence_tick t1 t2
  | WatcherOp.cleanupOp now => w.cleanup now
  | WatcherOp.terminateOp now => w.terminate_call now

/-- Run a sequence of operations, keeping only the final state. -/
def SilenceWatcher.runOps (w : SilenceWatcher) (ops : List WatcherOp) : SilenceWatcher :=
  ops.foldl (fun s op => (s.runOp op).1) w

/-- Run a sequence of frames through `process_frame`, keeping only the
final state. -/
def SilenceWatcher.run_frames (w : SilenceWatcher)
    (fs : List (Frame × FrameDirection × Nat)) : SilenceWatcher :=
  fs.foldl (fun s x => (s.process_frame x.1 x.2.1 x.2.2).1) w

/-- Number of summary log lines in an output list. -/
def countSummaries (outs : List WatcherOutput) : Nat :=
  outs.countP fun o =>
    match o with
    | WatcherOutput.logSummary _ => true
    | _ => false

/-! Concrete states used by counterexamples and witnesses. -/

/-- A watcher whose stats were already finalized at clock 5. -/
def wEndSet : SilenceWatcher :=
  { prompt_text := "Are you still there?"
    threshold_secs := 10
    max_prompts := 3
    awaiting_response := false
    last_bot_spoke_time := none
    unanswered_count := 0
    monitoring_active := false
    stats :=
      { call_start_time := 1
        call_end_time := some 5
        silence_events := 0
        user_speech_events := 0
        bot_speech_events := 0
        prompts_sent := 0 } }

/-- A watcher awaiting a response since clock 5, threshold 10, max 3. -/
def wBoundary : SilenceWatcher :=
  { prompt_text := "Are you still there?"
    threshold_secs := 10
    max_prompts := 3
    awaiting_response := true
    last_bot_spoke_time := some 5
    unanswered_count := 0
    monitoring_active := true
    stats := CallStats.init 5 }

/-! Helper lemmas. -/

theorem run_frames_cons (w : SilenceWatcher) (f : Frame) (d : FrameDirection) (t : Nat)
    (fs : List (Frame × FrameDirection × Nat)) :
    w.run_frames ((f, d, t) :: fs) = ((w.process_frame f d t).1).run_frames fs := rfl

theorem run_frames_counts (fs : List (Frame × FrameDirection × Nat)) (w : SilenceWatcher) :
    (w.run_frames fs).stats.bot_speech_events
        = w.stats.bot_speech_events
          + fs.countP (fun x => x.1 == Frame.BotStoppedSpeakingFrame)
    ∧ (w.run_frames fs).stats.user_speech_events
        = w.stats.user_speech_events
          + fs.countP (fun x => x.1 == Frame.UserStartedSpeakingFrame) := by
  induction fs generalizing w with
  | nil => simp [SilenceWatcher.run_frames]
  | cons x xs ih =>
    obtain ⟨f, d, t⟩ := x
    rw [run_frames_cons]
    have h := ih ((w.process_frame f d t).1)
    cases f <;>
      simp [SilenceWatcher.process_frame, List.countP_cons] at h ⊢ <;>
      omega

/-- One operation preserves equality of the silence and prompt counters. -/
theorem runOp_preserves_counter_eq (w : SilenceWatcher) (op : WatcherOp)
    (h : w.stats.silence_events = w.stats.prompts_sent) :
    (w.runOp op).1.stats.silence_events = (w.runOp op).1.stats.prompts_sent := by
  cases op with
  | frameOp f d now =>
      cases f <;> simpa [SilenceWatcher.runOp, SilenceWatcher.process_frame]
  | tickOp t1 t2 =>
      simp only [SilenceWatcher.runOp, SilenceWatcher.monitor_silence_tick,
        SilenceWatcher.terminate_call]
      split <;> try simpa
      split <;> try simpa
      split <;> try simpa
      split <;> simpa
  | cleanupOp now =>
      simp only [SilenceWatcher.runOp, SilenceWatcher.cleanup]
      split <;> simpa
  | terminateOp now =>
      simpa [SilenceWatcher.runOp, SilenceWatcher.terminate_call]

/-! Claims. -/

/-- C9: `process_frame` forwards the identical frame onward in the same
direction, for every frame kind and every direction — its only pipeline
output is the pushed incoming frame, so no domain event is consumed or
dropped. -/
theorem claim_C9_pass_through (w : SilenceWatcher) (f : Frame) (d : FrameDirection) (now : Nat) :
    (w.process_frame f d now).2 = [WatcherOutput.pushFrame f d] := by
  cases f <;> rfl

/-- C5: after any sequence of frames processed from a freshly constructed
watcher, `stats.bot_speech_events` equals the number of
`BotStoppedSpeakingFrame`s received and `stats.user_speech_events` equals
the number of `UserStartedSpeakingFrame`s received. -/
theorem claim_C5_speech_event_counts (p : String) (th m st : Nat)
    (fs : List (Frame × FrameDirection × Nat)) :
    ((SilenceWatcher.init p th m st).run_frames fs).stats.bot_speech_events
        = fs.countP (fun x => x.1 == Frame.BotStoppedSpeakingFrame)
    ∧ ((SilenceWatcher.init p th m st).run_frames fs).stats.user_speech_events
        = fs.countP (fun x => x.1 == Frame.UserStartedSpeakingFrame) := by
  have h := run_frames_counts fs (SilenceWatcher.init p th m st)
  simpa [SilenceWatcher.init, CallStats.init] using h

/-- C6: processing a `UserStartedSpeakingFrame` sets `awaiting_response`
to `false` and `unanswered_count` to `0`, and a subsequent monitor tick in
that window takes no action: it returns the state unchanged with no
outputs, so no prompt fires for the silence window that was pending. -/
theorem claim_C6_user_speech_cancels_window (w : SilenceWatcher) (d : FrameDirection)
    (now tN tA : Nat) :
    (w.process_frame Frame.UserStartedSpeakingFrame d now).1.awaiting_response = false
    ∧ (w.process_frame Frame.UserStartedSpeakingFrame d now).1.unanswered_count = 0
    ∧ (w.process_frame Frame.UserStartedSpeakingFrame d now).1.monitor_silence_tick tN tA
        = ((w.process_frame Frame.UserStartedSpeakingFrame d now).1, []) := by
  refine ⟨rfl, rfl, ?_⟩
  by_cases hm : w.monitoring_active <;>
    simp [SilenceWatcher.process_frame, SilenceWatcher.monitor_silence_tick, hm]

/-- C10: in every watcher state reachable from construction by any
sequence of operations (frames, monitor ticks, cleanup, terminate),
`stats.silence_events` equals `stats.prompts_sent`. -/
theorem claim_C10_silence_eq_prompts (p : String) (th m st : Nat) (ops : List WatcherOp) :
    ((SilenceWatcher.init p th m st).runOps ops).stats.silence_events
      = ((SilenceWatcher.init p th m st).runOps ops).stats.prompts_sent := by
  have key : ∀ (l : List WatcherOp) (w : SilenceWatcher),
      w.stats.silence_events = w.stats.prompts_sent →
      (w.runOps l).stats.silence_events = (w.runOps l).stats.prompts_sent := by
    intro l
    induction l with
    | nil => intro w h; simpa [SilenceWatcher.runOps]
    | cons op rest ih =>
        intro w h
        have hstep := runOp_preserves_counter_eq w op h
        simpa [SilenceWatcher.runOps, List.foldl_cons] using ih _ hstep
  exact key ops _ rfl

/-- Full characterization of a monitor tick that fires a prompt and then
terminates (the post-increment count reaches `max_prompts`). -/
theorem tick_fires_and_terminates (w : SilenceWatcher) (tN tA t : Nat)
    (hmon : w.monitoring_active = true)
    (hawait : w.awaiting_response = true)
    (hlast : w.last_bot_spoke_time = some t)
    (ht : t ≠ 0)
    (helapsed : (tN : Int) - (t : Int) > (w.threshold_secs : Int))
    (hmax : w.unanswered_count + 1 ≥ w.max_prompts) :
    w.monitor_silence_tick tN tA =
      ({ w with
          awaiting_response := true
          last_bot_spoke_time := some tA
          unanswered_count := w.unanswered_count + 1
          monitoring_active := false
          stats := { w.stats with
            silence_events := w.stats.silence_events + 1
            prompts_sent := w.stats.prompts_sent + 1
            call_end_time := some tA } }
       , [ WatcherOutput.ttsFrame (Frame.TextFrame w.prompt_text) FrameDirection.DOWNSTREAM
         , WatcherOutput.logSummary ({ w.stats with
              silence_events := w.stats.silence_events + 1
              prompts_sent := w.stats.prompts_sent + 1
              call_end_time := some tA }.generate_summary tA)
         , WatcherOutput.markCallTerminated
         , WatcherOutput.pushFrame Frame.EndTaskFrame FrameDirection.UPSTREAM ]) := by
  have htr : pyTruthy w.last_bot_spoke_time = true := by simp [hlast, pyTruthy, ht]
  simp only [SilenceWatcher.monitor_silence_tick, hmon, hawait, htr, Bool.and_self, if_true]
  rw [hlast]
  simp only [Option.getD_some]
  rw [if_pos helapsed, if_pos hmax]
  simp [SilenceWatcher.terminate_call]

/-- Full characterization of a monitor tick that fires a prompt without
reaching the termination condition. -/
theorem tick_fires_no_termination (w : SilenceWatcher) (tN tA t : Nat)
    (hmon : w.monitoring_active = true)
    (hawait : w.awaiting_response = true)
    (hlast : w.last_bot_spoke_time = some t)
    (ht : t ≠ 0)
    (helapsed : (tN : Int) - (t : Int) > (w.threshold_secs : Int))
    (hmax : w.unanswered_count + 1 < w.max_prompts) :
    w.monitor_silence_tick tN tA =
      ({ w with
          awaiting_response := true
          last_bot_spoke_time := some tA
          unanswered_count := w.unanswered_count + 1
          stats := { w.stats with
            silence_events := w.stats.silence_events + 1
            prompts_sent := w.stats.prompts_sent + 1 } }
       , [WatcherOutput.ttsFrame (Frame.TextFrame w.prompt_text) FrameDirection.DOWNSTREAM]) := by
  have htr : pyTruthy w.last_bot_spoke_time = true := by simp [hlast, pyTruthy, ht]
  simp only [SilenceWatcher.monitor_silence_tick, hmon, hawait, htr, Bool.and_self, if_true]
  rw [hlast]
  simp only [Option.getD_some]
  rw [if_pos helapsed, if_neg (by omega)]

/-- C1 counterexample: on a watcher whose stats were already finalized at
clock 5, running the finalization path `terminate_call` again (at clock 10)
does not leave `call_end_time` unchanged — it overwrites it. -/
theorem claim_C1_counterexample :
    (wEndSet.terminate_call 10).1.stats.call_end_time ≠ wEndSet.stats.call_end_time := by
  decide

/-- C1 (amended): finalization via `cleanup` is idempotent — for every
state whose `call_end_time` is already set (truthy), `cleanup` leaves
`call_end_time` unchanged and emits no summary; `terminate_call`, by
contrast, unconditionally overwrites `call_end_time` with the current
clock. -/
theorem claim_C1_cleanup_idempotent (wc wt : SilenceWatcher) (nc nt : Nat)
    (hset : pyTruthy wc.stats.call_end_time = true) :
    (wc.cleanup nc).1.stats.call_end_time = wc.stats.call_end_time
    ∧ (wc.cleanup nc).2 = []
    ∧ (wt.terminate_call nt).1.stats.call_end_time = some nt := by
  refine ⟨?_, ?_, rfl⟩ <;> simp [SilenceWatcher.cleanup, hset]

/-- C1 witness: the amended statement at the concrete finalized state
`wEndSet`, cleanup clock 10, terminate clock 10. -/
theorem claim_C1_witness :
    (wEndSet.cleanup 10).1.stats.call_end_time = wEndSet.stats.call_end_time
    ∧ (wEndSet.cleanup 10).2 = []
    ∧ (wEndSet.terminate_call 10).1.stats.call_end_time = some 10 :=
  claim_C1_cleanup_idempotent wEndSet wEndSet 10 10 (by decide)

/-- C3 counterexample: at the boundary `elapsed == threshold_secs`
(`last_bot_spoke_time = 5`, tick at clock 15, threshold 10) the watcher
takes no action at all — in particular it does not increment
`prompts_sent` — because the source tests `elapsed > self.threshold_secs`
strictly. -/
theorem claim_C3_counterexample :
    wBoundary.awaiting_response = true
    ∧ wBoundary.last_bot_spoke_time = some 5
    ∧ (15 : Int) - (5 : Int) = (wBoundary.threshold_secs : Int)
    ∧ (wBoundary.monitor_silence_tick 15 16).1.stats.prompts_sent
        ≠ wBoundary.stats.prompts_sent + 1
    ∧ wBoundary.monitor_silence_tick 15 16 = (wBoundary, []) := by
  refine ⟨rfl, rfl, by decide, by decide, by decide⟩

/-- C3 (amended): on a periodic tick taken while monitoring, with
`awaiting_response` true and `last_bot_spoke_time` set to a nonzero
timestamp, whenever the elapsed time is STRICTLY greater than
`threshold_secs`, the watcher increments `unanswered_count`,
`silence_events` and `prompts_sent` each by one, emits the prompt text to
the downstream synthesis sink, resets `last_bot_spoke_time` to the current
clock (read after the pacing delay) and sets `awaiting_response` back to
`true`; at `elapsed == threshold_secs` exactly, the tick takes no action. -/
theorem claim_C3_tick_prompt_action (w : SilenceWatcher) (tN tA t : Nat)
    (hmon : w.monitoring_active = true)
    (hawait : w.awaiting_response = true)
    (hlast : w.last_bot_spoke_time = some t)
    (ht : t ≠ 0)
    (helapsed : (tN : Int) - (t : Int) > (w.threshold_secs : Int)) :
    (w.monitor_silence_tick tN tA).1.unanswered_count = w.unanswered_count + 1
    ∧ (w.monitor_silence_tick tN tA).1.stats.silence_events = w.stats.silence_events + 1
    ∧ (w.monitor_silence_tick tN tA).1.stats.prompts_sent = w.stats.prompts_sent + 1
    ∧ (w.monitor_silence_tick tN tA).1.last_bot_spoke_time = some tA
    ∧ (w.monitor_silence_tick tN tA).1.awaiting_response = true
    ∧ (w.monitor_silence_tick tN tA).2.head?
        = some (WatcherOutput.ttsFrame (Frame.TextFrame w.prompt_text)
            FrameDirection.DOWNSTREAM) := by
  by_cases hmax : w.unanswered_count + 1 ≥ w.max_prompts
  · rw [tick_fires_and_terminates w tN tA t hmon hawait hlast ht helapsed hmax]
    exact ⟨rfl, rfl, rfl, rfl, rfl, rfl⟩
  · rw [tick_fires_no_termination w tN tA t hmon hawait hlast ht helapsed (by omega)]
    exact ⟨rfl, rfl, rfl, rfl, rfl, rfl⟩

/-- C3 witness: the amended statement at the concrete state `wBoundary`
(last spoke at 5, threshold 10) with a tick at clock 16, elapsed 11 > 10. -/
theorem claim_C3_witness :
    (wBoundary.monitor_silence_tick 16 18).1.unanswered_count = wBoundary.unanswered_count + 1
    ∧ (wBoundary.monitor_silence_tick 16 18).1.stats.silence_events
        = wBoundary.stats.silence_events + 1
    ∧ (wBoundary.monitor_silence_tick 16 18).1.stats.prompts_sent
        = wBoundary.stats.prompts_sent + 1
    ∧ (wBoundary.monitor_silence_tick 16 18).1.last_bot_spoke_time = some 18
    ∧ (wBoundary.monitor_silence_tick 16 18).1.awaiting_response = true
    ∧ (wBoundary.monitor_silence_tick 16 18).2.head?
        = some (WatcherOutput.ttsFrame (Frame.TextFrame wBoundary.prompt_text)
            FrameDirection.DOWNSTREAM) :=
  claim_C3_tick_prompt_action wBoundary 16 18 5 rfl rfl rfl (by decide) (by decide)

/-- A watcher with `max_prompts = 1`, awaiting a response since clock 5,
no prompt sent yet. -/
def wMaxOne : SilenceWatcher :=
  { prompt_text := "Are you still there?"
    threshold_secs := 10
    max_prompts := 1
    awaiting_response := true
    last_bot_spoke_time := some 5
    unanswered_count := 0
    monitoring_active := true
    stats := CallStats.init 5 }

/-- C4: immediately after the tick's prompt action, whenever the
incremented `unanswered_count` reaches `max_prompts`, the termination
sequence runs: the stats are finalized at the current clock, monitoring
stops, the session manager is told the call terminated, and `EndTaskFrame`
is pushed upstream.  In particular, when `max_prompts` is 0 or 1 and no
prompt was sent yet, the first silence timeout terminates immediately. -/
theorem claim_C4_max_prompts_termination :
    (∀ (w : SilenceWatcher) (tN tA t : Nat),
      w.monitoring_active = true → w.awaiting_response = true →
      w.last_bot_spoke_time = some t → t ≠ 0 →
      (tN : Int) - (t : Int) > (w.threshold_secs : Int) →
      w.unanswered_count + 1 ≥ w.max_prompts →
      (w.monitor_silence_tick tN tA).1.monitoring_active = false
      ∧ (w.monitor_silence_tick tN tA).1.stats.call_end_time = some tA
      ∧ WatcherOutput.markCallTerminated ∈ (w.monitor_silence_tick tN tA).2
      ∧ WatcherOutput.pushFrame Frame.EndTaskFrame FrameDirection.UPSTREAM
          ∈ (w.monitor_silence_tick tN tA).2)
    ∧ (∀ (w : SilenceWatcher) (tN tA t : Nat),
      w.monitoring_active = true → w.awaiting_response = true →
      w.last_bot_spoke_time = some t → t ≠ 0 →
      (tN : Int) - (t : Int) > (w.threshold_secs : Int) →
      w.max_prompts ≤ 1 → w.unanswered_count = 0 →
      (w.monitor_silence_tick tN tA).1.monitoring_active = false
      ∧ (w.monitor_silence_tick tN tA).1.stats.call_end_time = some tA
      ∧ WatcherOutput.markCallTerminated ∈ (w.monitor_silence_tick tN tA).2
      ∧ WatcherOutput.pushFrame Frame.EndTaskFrame FrameDirection.UPSTREAM
          ∈ (w.monitor_silence_tick tN tA).2) := by
  have main : ∀ (w : SilenceWatcher) (tN tA t : Nat),
      w.monitoring_active = true → w.awaiting_response = true →
      w.last_bot_spoke_time = some t → t ≠ 0 →
      (tN : Int) - (t : Int) > (w.threshold_secs : Int) →
      w.unanswered_count + 1 ≥ w.max_prompts →
      (w.monitor_silence_tick tN tA).1.monitoring_active = false
      ∧ (w.monitor_silence_tick tN tA).1.stats.call_end_time = some tA
      ∧ WatcherOutput.markCallTerminated ∈ (w.monitor_silence_tick tN tA).2
      ∧ WatcherOutput.pushFrame Frame.EndTaskFrame FrameDirection.UPSTREAM
          ∈ (w.monitor_silence_tick tN tA).2 := by
    intro w tN tA t hmon hawait hlast ht helapsed hmax
    rw [tick_fires_and_terminates w tN tA t hmon hawait hlast ht helapsed hmax]
    refine ⟨rfl, rfl, ?_, ?_⟩ <;> simp
  exact ⟨main, fun w tN tA t hmon hawait hlast ht helapsed hle hzero =>
    main w tN tA t hmon hawait hlast ht helapsed (by omega)⟩

/-- C4 witness: with `max_prompts = 1` and no prompt sent yet, the first
silence timeout (tick at clock 16, elapsed 11 > 10) terminates the call. -/
theorem claim_C4_witness :
    (wMaxOne.monitor_silence_tick 16 18).1.monitoring_active = false
    ∧ (wMaxOne.monitor_silence_tick 16 18).1.stats.call_end_time = some 18
    ∧ WatcherOutput.markCallTerminated ∈ (wMaxOne.monitor_silence_tick 16 18).2
    ∧ WatcherOutput.pushFrame Frame.EndTaskFrame FrameDirection.UPSTREAM
        ∈ (wMaxOne.monitor_silence_tick 16 18).2 :=
  claim_C4_max_prompts_termination.2 wMaxOne 16 18 5 rfl rfl rfl (by decide) (by decide)
    (by decide) rfl

/-- A mid-call watcher two prompts in (`max_prompts = 3`), awaiting a
response since clock 5, stats not yet finalized. -/
def wRace : SilenceWatcher :=
  { prompt_text := "Are you still there?"
    threshold_secs := 10
    max_prompts := 3
    awaiting_response := true
    last_bot_spoke_time := some 5
    unanswered_count := 2
    monitoring_active := true
    stats := CallStats.init 5 }

/-- C2: starting from an active, unfinalized state in which the next tick
reaches `max_prompts`, triggering both the termination path (the
terminating tick) and the cleanup path — in either order — emits the call
summary exactly once: the second path observes `monitoring_active = false`
(the tick after cleanup does nothing) or an already-finalized `CallStats`
(cleanup after termination skips the summary). -/
theorem claim_C2_summary_exactly_once (w : SilenceWatcher) (tN tA tC t : Nat)
    (hmon : w.monitoring_active = true)
    (hend : pyTruthy w.stats.call_end_time = false)
    (hawait : w.awaiting_response = true)
    (hlast : w.last_bot_spoke_time = some t)
    (ht : t ≠ 0)
    (helapsed : (tN : Int) - (t : Int) > (w.threshold_secs : Int))
    (hmax : w.unanswered_count + 1 ≥ w.max_prompts)
    (htA : tA ≠ 0) :
    countSummaries ((w.monitor_silence_tick tN tA).2
        ++ ((w.monitor_silence_tick tN tA).1.cleanup tC).2) = 1
    ∧ countSummaries ((w.cleanup tC).2
        ++ ((w.cleanup tC).1.monitor_silence_tick tN tA).2) = 1 := by
  constructor
  · rw [tick_fires_and_terminates w tN tA t hmon hawait hlast ht helapsed hmax]
    simp [countSummaries, SilenceWatcher.cleanup, pyTruthy, htA]
  · simp only [SilenceWatcher.cleanup, hend, Bool.not_false, if_true]
    simp [countSummaries, SilenceWatcher.monitor_silence_tick]

/-- C2 witness: the concrete racing state `wRace` (third prompt reaches
`max_prompts = 3`), tick clocks 16/18, cleanup clock 20: one summary in
both orders. -/
theorem claim_C2_witness :
    countSummaries ((wRace.monitor_silence_tick 16 18).2
        ++ ((wRace.monitor_silence_tick 16 18).1.cleanup 20).2) = 1
    ∧ countSummaries ((wRace.cleanup 20).2
        ++ ((wRace.cleanup 20).1.monitor_silence_tick 16 18).2) = 1 :=
  claim_C2_summary_exactly_once wRace 16 18 20 5 rfl rfl rfl rfl (by decide) (by decide)
    (by decide) (by decide)

/-- Spec-side rendering of a whole non-negative duration (from the spec's
words, for comparison with the source's `format_duration`): minutes, a
colon, and the seconds zero-padded to two digits. -/
def format_duration_spec (s : Nat) : String :=
  toString (s / 60) ++ ":"
    ++ (if s % 60 < 10 then "0" ++ toString (s % 60) else toString (s % 60))

theorem toString_natCast_int (k : Nat) : toString ((k : Nat) : Int) = toString k := rfl

theorem pyFormat02d_natCast :
    ∀ m : Nat, m < 60 →
      pyFormat02d ((m : Nat) : Int)
        = if m < 10 then "0" ++ toString m else toString m := by
  decide

/-- Stats whose call lasted 65 whole seconds (start 35, end 100). -/
def cStats65 : CallStats :=
  { call_start_time := 35
    call_end_time := some 100
    silence_events := 0
    user_speech_events := 0
    bot_speech_events := 0
    prompts_sent := 0 }

/-- C8: whenever the duration is a whole non-negative number `d` of
seconds, `format_duration` returns the string composed of `d / 60`, a
colon, and `d % 60` zero-padded to two digits; in particular a 65-second
duration renders as `"1:05"`. -/
theorem claim_C8_format_duration :
    (∀ (st : CallStats) (now d : Nat),
      st.duration_seconds now = (d : Int) →
      st.format_duration now = format_duration_spec d)
    ∧ cStats65.format_duration 0 = "1:05" := by
  constructor
  · intro st now d hd
    simp only [CallStats.format_duration]
    rw [hd]
    have h60 : ((60 : Nat) : Int) = (60 : Int) := by norm_cast
    rw [← h60, ← Int.ofNat_fdiv, ← Int.ofNat_fmod, toString_natCast_int,
      pyFormat02d_natCast (d % 60) (Nat.mod_lt d (by norm_num))]
    rfl
  · decide

/-- C8 witness: the general statement applied to `cStats65` (duration
`100 - 35 = 65`), agreeing with the spec-side rendering of 65 seconds. -/
theorem claim_C8_witness :
    cStats65.format_duration 7 = format_duration_spec 65 :=
  claim_C8_format_duration.1 cStats65 7 65 (by decide)

theorem digitChar_ne_newline (m : Nat) : Nat.digitChar m ≠ '\n' := by
  match m with
  | 0 | 1 | 2 | 3 | 4 | 5 | 6 | 7 | 8 | 9 | 10 | 11 | 12 | 13 | 14 | 15 => decide
  | n + 16 =>
      unfold Nat.digitChar
      repeat rw [if_neg (by omega)]
      decide

theorem toDigitsCore_no_newline (fuel : Nat) :
    ∀ (n : Nat) (acc : List Char), '\n' ∉ acc → '\n' ∉ Nat.toDigitsCore 10 fuel n acc := by
  induction fuel with
  | zero => intro n acc hacc; simpa [Nat.toDigitsCore] using hacc
  | succ fuel ih =>
      intro n acc hacc
      simp only [Nat.toDigitsCore]
      have hcons : '\n' ∉ Nat.digitChar (n % 10) :: acc := by
        intro hmem
        rcases List.mem_cons.mp hmem with h | h
        · exact digitChar_ne_newline (n % 10) h.symm
        · exact hacc h
      split
      · exact hcons
      · exact ih (n / 10) _ hcons

theorem natToString_no_newline (n : Nat) : '\n' ∉ (toString n).data :=
  toDigitsCore_no_newline (n + 1) n [] (by simp)

theorem intToString_no_newline (i : Int) : '\n' ∉ (toString i).data := by
  cases i with
  | ofNat n => exact natToString_no_newline n
  | negSucc n =>
      show '\n' ∉ (("-" : String) ++ toString (n + 1)).data
      rw [String.data_append]
      intro hmem
      rcases List.mem_append.mp hmem with h | h
      · simp at h
      · exact natToString_no_newline (n + 1) h

theorem no_newline_append (a b : String)
    (ha : '\n' ∉ a.data) (hb : '\n' ∉ b.data) : '\n' ∉ (a ++ b).data := by
  rw [String.data_append]
  intro hmem
  rcases List.mem_append.mp hmem with h | h
  · exact ha h
  · exact hb h

theorem pyFormat02d_no_newline (n : Int) : '\n' ∉ (pyFormat02d n).data := by
  show '\n' ∉ (if (toString n).length < 2 then "0" ++ toString n else toString n).data
  split
  · exact no_newline_append _ _ (by decide) (intToString_no_newline n)
  · exact intToString_no_newline n

theorem format_duration_no_newline (s : CallStats) (now : Nat) :
    '\n' ∉ (s.format_duration now).data := by
  show '\n' ∉ ((toString (Int.fdiv (s.duration_seconds now) 60) ++ ":")
      ++ pyFormat02d (Int.fmod (s.duration_seconds now) 60)).data
  exact no_newline_append _ _
    (no_newline_append _ _ (intToString_no_newline _) (by decide))
    (pyFormat02d_no_newline _)

theorem string_intercalate_newline_data (a b c d e f : String) :
    (String.intercalate "\n" [a, b, c, d, e, f]).data
      = List.intercalate ['\n'] [a.data, b.data, c.data, d.data, e.data, f.data] := by
  have h1 : String.intercalate "\n" [a, b, c, d, e, f]
      = ((((((((((a ++ "\n") ++ b) ++ "\n") ++ c) ++ "\n") ++ d) ++ "\n") ++ e) ++ "\n") ++ f) := rfl
  have hnl : ("\n" : String).data = ['\n'] := rfl
  rw [h1]
  simp [String.data_append, hnl, List.intercalate, List.intersperse, List.flatten]

/-- Stats for the worked example: duration 65s (start 35, end 100),
2 silence events, 2 prompts, 1 user speech, 3 bot speech. -/
def cStatsC7 : CallStats :=
  { call_start_time := 35
    call_end_time := some 100
    silence_events := 2
    user_speech_events := 1
    bot_speech_events := 3
    prompts_sent := 2 }

/-- C7: `generate_summary` is byte-for-byte determined by the counters and
the duration (first conjunct: states agreeing on duration and all four
counters produce identical summaries); for every counter state it consists
of exactly six newline-separated lines in fixed order — header, duration,
silence-event count, prompts-sent count, user-speech count, bot-speech
count (second conjunct); and the worked example (duration 65s,
silence 2, prompts 2, user 1, bot 3) renders duration as `1:05` with that
five-line data ordering (third conjunct). -/
theorem claim_C7_summary_format :
    (∀ (s1 s2 : CallStats) (now1 now2 : Nat),
        s1.duration_seconds now1 = s2.duration_seconds now2 →
        s1.silence_events = s2.silence_events →
        s1.prompts_sent = s2.prompts_sent →
        s1.user_speech_events = s2.user_speech_events →
        s1.bot_speech_events = s2.bot_speech_events →
        s1.generate_summary now1 = s2.generate_summary now2)
    ∧ (∀ (s : CallStats) (now : Nat),
        ((s.generate_summary now).data).splitOn '\n'
          = [ ("=== CALL SUMMARY ===" : String).data
            , ("Duration: " ++ s.format_duration now).data
            , ("Silence events: " ++ toString s.silence_events).data
            , ("Prompts sent: " ++ toString s.prompts_sent).data
            , ("User speech events: " ++ toString s.user_speech_events).data
            , ("Bot speech events: " ++ toString s.bot_speech_events).data ])
    ∧ cStatsC7.generate_summary 100
        = "=== CALL SUMMARY ===\nDuration: 1:05\nSilence events: 2\nPrompts sent: 2\nUser speech events: 1\nBot speech events: 3" := by
  refine ⟨?_, ?_, by decide⟩
  · intro s1 s2 now1 now2 hdur hsil hpro huse hbot
    simp only [CallStats.generate_summary, CallStats.format_duration, hdur, hsil, hpro,
      huse, hbot]
  · intro s now
    have key := string_intercalate_newline_data "=== CALL SUMMARY ==="
      ("Duration: " ++ s.format_duration now)
      ("Silence events: " ++ toString s.silence_events)
      ("Prompts sent: " ++ toString s.prompts_sent)
      ("User speech events: " ++ toString s.user_speech_events)
      ("Bot speech events: " ++ toString s.bot_speech_events)
    show ((String.intercalate "\n"
        [ "=== CALL SUMMARY ==="
        , "Duration: " ++ s.format_duration now
        , "Silence events: " ++ toString s.silence_events
        , "Prompts sent: " ++ toString s.prompts_sent
        , "User speech events: " ++ toString s.user_speech_events
        , "Bot speech events: " ++ toString s.bot_speech_events ]).data).splitOn '\n' = _
    rw [key]
    refine List.splitOn_intercalate _ '\n' ?_ (by simp)
    intro l hl
    simp only [List.mem_cons, List.not_mem_nil, or_false] at hl
    rcases hl with rfl | rfl | rfl | rfl | rfl | rfl
    · decide
    · exact no_newline_append _ _ (by decide) (format_duration_no_newline s now)
    · exact no_newline_append _ _ (by decide) (natToString_no_newline _)
    · exact no_newline_append _ _ (by decide) (natToString_no_newline _)
    · exact no_newline_append _ _ (by decide) (natToString_no_newline _)
    · exact no_newline_append _ _ (by decide) (natToString_no_newline _)

/-- Stats with the same counters and duration as `cStatsC7` but a shifted
timeline (start 0, end 65). -/
def cStatsC7b : CallStats :=
  { call_start_time := 0
    call_end_time := some 65
    silence_events := 2
    user_speech_events := 1
    bot_speech_events := 3
    prompts_sent := 2 }

/-- C7 witness: the determinism conjunct applied to two concrete states
with shifted timelines but equal duration and counters. -/
theorem claim_C7_witness :
    cStatsC7.generate_summary 100 = cStatsC7b.generate_summary 7 :=
  claim_C7_summary_format.1 cStatsC7 cStatsC7b 100 7 (by decide) rfl rfl rfl rfl
